import Mathlib

/-!
Shallow embedding of samply's span-log correlator and counter flushing
(src/samply/src/shared/marker_file.rs, process_sample_data.rs,
counter_file.rs, and fxprof-processed-profile/src/graph_color.rs).

Modelling conventions:
* Rust `u64`/`i32`/`u32` are `Nat`/`Int` with explicit range checks where the
  source can overflow or where `str::parse` rejects out-of-range values;
  the one wrapping subtraction (`end_time - start_time` in a release build)
  is `u64_sub` below.
* `std::time::Duration` is an exact rational number of nanoseconds; the
  `f64` round-trips of `Duration::from_secs_f64` are idealized as exact
  rational arithmetic (no claim in scope depends on float rounding).
* Rust strings are Lean `String`s (sequences of characters); byte-index
  slicing in the source coincides with character indexing on the inputs in
  scope.  `char::is_numeric` is modelled as `Char.isDigit`.
* `serde_json::Value` is the `Json` inductive; maps (`serde_json::Map`,
  `std::collections::HashMap`) are association lists with unique keys,
  observed only through `List.lookup` / `removeKey`, which matches map
  semantics.  `serde_json::from_str` is modelled by `Json.from_str`,
  restricted to integer JSON numbers and the standard escape sequences
  (numbers with fraction/exponent parts and `\u` escapes above the BMP are
  out of scope for every claim).
* Rust panics (`unwrap`, `panic!` and friends) are `Except.error`; a
  function that can panic returns `Panics α := Except String α`.
-/

abbrev Panics (α : Type) := Except String α

/-- `Option::unwrap` / `unwrap_or_else(panic!)`: a `none` aborts the process. -/
def unwrap {α : Type} (msg : String) : Option α → Panics α
  | some a => .ok a
  | none => .error msg

/-- Wrapping `u64` subtraction (`a - b` in a release build). -/
def u64_sub (a b : Nat) : Nat := (a + 2 ^ 64 - b) % 2 ^ 64

/-- `std::time::Duration`, as an exact count of nanoseconds. -/
abbrev Duration := ℚ

/-- `Duration::from_nanos`. -/
def Duration.from_nanos (n : Nat) : Duration := (n : ℚ)

/-- `Duration::from_secs_f64`; panics on a negative argument, as in Rust. -/
def Duration.from_secs_f64 (secs : ℚ) : Panics Duration :=
  if secs < 0 then .error "can not convert float seconds to Duration: value is negative"
  else .ok (secs * 1000000000)

/-- `serde_json::Value`. -/
inductive Json where
  | null
  | bool (b : Bool)
  | num (n : Int)
  | str (s : String)
  | arr (elems : List Json)
  | obj (entries : List (String × Json))
  deriving Repr

/-- `Value::get(key)`: `none` on a non-object or a missing key. -/
def Json.get (j : Json) (key : String) : Option Json :=
  match j with
  | .obj entries => entries.lookup key
  | _ => none

/-- `Value::as_str`. -/
def Json.as_str : Json → Option String
  | .str s => some s
  | _ => none

/-- `Value::as_object` (the entry list of an object). -/
def Json.as_object : Json → Option (List (String × Json))
  | .obj entries => some entries
  | _ => none

/-- Map insert (`serde_json::Map::insert` / `HashMap::insert`): replace the
existing entry for the key, or add one. -/
def setEntry {β : Type} : List (String × β) → String → β → List (String × β)
  | [], key, v => [(key, v)]
  | (k, w) :: rest, key, v =>
    if k = key then (key, v) :: rest else (k, w) :: setEntry rest key v

/-- Map removal (`HashMap::remove`'s effect on the map). -/
def removeKey {β : Type} (l : List (String × β)) (key : String) : List (String × β) :=
  l.filter (fun kv => kv.1 ≠ key)

/-- One hexadecimal digit (for JSON string escapes). -/
def hexDigit (n : Nat) : Char :=
  if n < 10 then Char.ofNat (48 + n) else Char.ofNat (87 + n)

/-- JSON string escaping as performed by serde's serializer. -/
def escapeChar (c : Char) : String :=
  if c = '"' then "\\\""
  else if c = '\\' then "\\\\"
  else if c = '\n' then "\\n"
  else if c = '\r' then "\\r"
  else if c = '\t' then "\\t"
  else if c.toNat = 8 then "\\b"
  else if c.toNat = 12 then "\\f"
  else if c.toNat < 32 then
    "\\u00" ++ String.singleton (hexDigit (c.toNat / 16)) ++ String.singleton (hexDigit (c.toNat % 16))
  else String.singleton c

/-- A JSON string literal with quotes and escapes. -/
def quoteJson (s : String) : String :=
  "\"" ++ String.join (s.toList.map escapeChar) ++ "\""

mutual

/-- `Value::to_string`: compact serde serialization. -/
def Json.render : Json → String
  | .null => "null"
  | .bool true => "true"
  | .bool false => "false"
  | .num n => toString n
  | .str s => quoteJson s
  | .arr elems => "[" ++ Json.renderList elems ++ "]"
  | .obj entries => "\x7b" ++ Json.renderEntries entries ++ "\x7d"

def Json.renderList : List Json → String
  | [] => ""
  | [j] => Json.render j
  | j :: rest => Json.render j ++ "," ++ Json.renderList rest

def Json.renderEntries : List (String × Json) → String
  | [] => ""
  | [(k, v)] => quoteJson k ++ ":" ++ Json.render v
  | (k, v) :: rest => quoteJson k ++ ":" ++ Json.render v ++ "," ++ Json.renderEntries rest

end

/-- JSON whitespace skipping. -/
def skipWs : List Char → List Char
  | c :: rest =>
    if c = ' ' ∨ c = '\t' ∨ c = '\n' ∨ c = '\r' then skipWs rest else c :: rest
  | [] => []

/-- Value of a (hexadecimal) digit character, if any. -/
def hexVal (c : Char) : Option Nat :=
  if '0' ≤ c ∧ c ≤ '9' then some (c.toNat - 48)
  else if 'a' ≤ c ∧ c ≤ 'f' then some (c.toNat - 87)
  else if 'A' ≤ c ∧ c ≤ 'F' then some (c.toNat - 55)
  else none

/-- Body of a JSON string literal (after the opening quote). -/
def parseStringBody (fuel : Nat) (cs : List Char) (acc : String) : Option (String × List Char) :=
  match fuel, cs with
  | 0, _ => none
  | _, [] => none
  | fuel + 1, c :: rest =>
    if c = '"' then some (acc, rest)
    else if c = '\\' then
      match rest with
      | [] => none
      | e :: rest2 =>
        if e = '"' then parseStringBody fuel rest2 (acc.push '"')
        else if e = '\\' then parseStringBody fuel rest2 (acc.push '\\')
        else if e = '/' then parseStringBody fuel rest2 (acc.push '/')
        else if e = 'n' then parseStringBody fuel rest2 (acc.push '\n')
        else if e = 't' then parseStringBody fuel rest2 (acc.push '\t')
        else if e = 'r' then parseStringBody fuel rest2 (acc.push '\r')
        else if e = 'b' then parseStringBody fuel rest2 (acc.push (Char.ofNat 8))
        else if e = 'f' then parseStringBody fuel rest2 (acc.push (Char.ofNat 12))
        else if e = 'u' then
          match rest2 with
          | h1 :: h2 :: h3 :: h4 :: rest3 =>
            match hexVal h1, hexVal h2, hexVal h3, hexVal h4 with
            | some a, some b, some c, some d =>
              parseStringBody fuel rest3 (acc.push (Char.ofNat (((a * 16 + b) * 16 + c) * 16 + d)))
            | _, _, _, _ => none
          | _ => none
        else none
    else parseStringBody fuel rest (acc.push c)

/-- Digits of a decimal literal, as a number. -/
def digitsVal (cs : List Char) : Nat :=
  cs.foldl (fun a c => a * 10 + (c.toNat - 48)) 0

mutual

/-- One JSON value (integer numbers only; see the header note). -/
def parseValue : Nat → List Char → Option (Json × List Char)
  | 0, _ => none
  | fuel + 1, cs =>
    match skipWs cs with
    | [] => none
    | c :: rest =>
      if c = 'n' then
        match rest with
        | 'u' :: 'l' :: 'l' :: rest2 => some (.null, rest2)
        | _ => none
      else if c = 't' then
        match rest with
        | 'r' :: 'u' :: 'e' :: rest2 => some (.bool true, rest2)
        | _ => none
      else if c = 'f' then
        match rest with
        | 'a' :: 'l' :: 's' :: 'e' :: rest2 => some (.bool false, rest2)
        | _ => none
      else if c = '"' then
        match parseStringBody (rest.length + 1) rest "" with
        | some (s, rest2) => some (.str s, rest2)
        | none => none
      else if c = '[' then
        match skipWs rest with
        | ']' :: rest2 => some (.arr [], rest2)
        | rest1 => parseArrayItems fuel rest1 []
      else if c = '\x7b' then
        match skipWs rest with
        | '\x7d' :: rest2 => some (.obj [], rest2)
        | rest1 => parseObjectItems fuel rest1 []
      else if c = '-' then
        let digits := rest.takeWhile Char.isDigit
        if digits = [] then none
        else some (.num (-(digitsVal digits : Int)), rest.dropWhile Char.isDigit)
      else if c.isDigit then
        let digits := (c :: rest).takeWhile Char.isDigit
        some (.num (digitsVal digits : Int), (c :: rest).dropWhile Char.isDigit)
      else none

/-- Comma-separated array items up to the closing bracket. -/
def parseArrayItems (fuel : Nat) (cs : List Char) (acc : List Json) :
    Option (Json × List Char) :=
  match fuel with
  | 0 => none
  | fuel + 1 =>
    match parseValue fuel cs with
    | none => none
    | some (v, rest) =>
      match skipWs rest with
      | ',' :: rest2 => parseArrayItems fuel rest2 (acc ++ [v])
      | ']' :: rest2 => some (.arr (acc ++ [v]), rest2)
      | _ => none

/-- Comma-separated object members up to the closing brace; a repeated key
overwrites the earlier entry, as in `serde_json::Map`. -/
def parseObjectItems (fuel : Nat) (cs : List Char) (acc : List (String × Json)) :
    Option (Json × List Char) :=
  match fuel with
  | 0 => none
  | fuel + 1 =>
    match skipWs cs with
    | '"' :: rest =>
      match parseStringBody (rest.length + 1) rest "" with
      | none => none
      | some (key, rest1) =>
        match skipWs rest1 with
        | ':' :: rest2 =>
          match parseValue fuel rest2 with
          | none => none
          | some (v, rest3) =>
            match skipWs rest3 with
            | ',' :: rest4 => parseObjectItems fuel rest4 (setEntry acc key v)
            | '\x7d' :: rest4 => some (.obj (setEntry acc key v), rest4)
            | _ => none
        | _ => none
    | _ => none

end

/-- `serde_json::from_str`: parse one document and require only trailing
whitespace after it. -/
def Json.from_str (s : String) : Option Json :=
  match parseValue (s.length + 2) s.toList with
  | some (j, rest) => if skipWs rest = [] then some j else none
  | none => none

/-- `str::parse::<u64>`: optional leading `+`, decimal digits, range check. -/
def parse_u64 (s : String) : Option Nat :=
  let cs := match s.toList with
    | '+' :: rest => rest
    | cs => cs
  if cs ≠ [] ∧ cs.all Char.isDigit then
    let n := digitsVal cs
    if n < 2 ^ 64 then some n else none
  else none

/-- `str::parse::<i32>`: optional sign, decimal digits, range check. -/
def parse_i32 (s : String) : Option Int :=
  let (neg, cs) : Bool × List Char := match s.toList with
    | '+' :: rest => (false, rest)
    | '-' :: rest => (true, rest)
    | cs => (false, cs)
  if cs ≠ [] ∧ cs.all Char.isDigit then
    let n : Int := if neg then -(digitsVal cs : Int) else (digitsVal cs : Int)
    if -(2 ^ 31) ≤ n ∧ n < 2 ^ 31 then some n else none
  else none

/-- `str::parse::<f64>`, restricted to plain decimal literals (optional sign,
digits, optional fraction); the exotic forms (`inf`, `nan`, exponents) are
out of scope for every claim. -/
def parse_f64 (s : String) : Option ℚ :=
  let (neg, cs) : Bool × List Char := match s.toList with
    | '+' :: rest => (false, rest)
    | '-' :: rest => (true, rest)
    | cs => (false, cs)
  let intPart := cs.takeWhile Char.isDigit
  let rest := cs.dropWhile Char.isDigit
  let mag : Option ℚ :=
    match rest with
    | [] => if intPart = [] then none else some (digitsVal intPart : ℚ)
    | '.' :: frac =>
      if frac.all Char.isDigit ∧ (intPart ≠ [] ∨ frac ≠ []) then
        some ((digitsVal intPart : ℚ) + (digitsVal frac : ℚ) / (10 : ℚ) ^ frac.length)
      else none
    | _ => none
  mag.map (fun q => if neg then -q else q)

/-- `str::split_once(c)`: the parts before and after the first occurrence. -/
def splitOnce (s : String) (c : Char) : Option (String × String) :=
  let cs := s.toList
  match cs.findIdx? (· = c) with
  | some i => some (String.mk (cs.take i), String.mk (cs.drop (i + 1)))
  | none => none

/-- Index of the last character satisfying `p` (`str::rfind`). -/
def rfindIdx (cs : List Char) (p : Char → Bool) : Option Nat :=
  match cs.reverse.findIdx? p with
  | some i => some (cs.length - 1 - i)
  | none => none

/-! ## marker_file.rs: data model -/

/-- Profile timestamps (`fxprof_processed_profile::Timestamp`), in
nanoseconds since the profile reference point. -/
abbrev Timestamp := Nat

/-- Modelled from the spec: `TimestampConverter` is the external collaborator
"raw monotonic ticks → profile timestamp" (its source,
shared/timestamp_converter.rs, is not part of the embedded files): the raw
tick minus a reference tick, scaled to nanoseconds. -/
structure TimestampConverter where
  reference_raw : Nat
  raw_to_ns_factor : Nat
  deriving Repr

def TimestampConverter.convert_time (tc : TimestampConverter) (t : Nat) : Timestamp :=
  (t - tc.reference_raw) * tc.raw_to_ns_factor

/-- `TracingTimings`. -/
structure TracingTimings where
  time_busy : Duration
  time_idle : Duration
  deriving Repr, DecidableEq

/-- `Default for TracingTimings` (zero durations). -/
def TracingTimings.default : TracingTimings := ⟨0, 0⟩

/-- `AddAssign for TracingTimings`: componentwise addition. -/
def TracingTimings.add (a b : TracingTimings) : TracingTimings :=
  ⟨a.time_busy + b.time_busy, a.time_idle + b.time_idle⟩

/-- `SpanType`. -/
inductive SpanType where
  | Total
  | Running
  deriving Repr, DecidableEq

/-- `Display for SpanType`. -/
def SpanType.display : SpanType → String
  | .Running => "Running"
  | .Total => "Total"

/-- `MarkerSpan`. -/
structure MarkerSpan where
  span_type : SpanType
  end_time : Timestamp
  timings : TracingTimings
  category : String
  profiler_label : Option String
  stats_label : Option String
  deriving Repr, DecidableEq

/-- `MarkerData`. -/
inductive MarkerData where
  | span (s : MarkerSpan)
  | event
  deriving Repr, DecidableEq

/-- `EventOrSpanMarker`; `extra_fields` is the `HashMap<String, String>`,
as an association list with unique keys. -/
structure EventOrSpanMarker where
  start_time : Timestamp
  message : String
  target : String
  extra_fields : List (String × String)
  marker_data : MarkerData
  deriving Repr, DecidableEq

/-! ## marker_file.rs: SpanTracker -/

/-- `SpanTracker`; `started_span_cache` is the `HashMap<u64, Value>`. -/
structure SpanTracker where
  start_keyword : String
  end_keyword : String
  started_span_cache : List (Nat × Json)
  deriving Repr

def SpanTracker.new (start_keyword end_keyword : String) : SpanTracker :=
  ⟨start_keyword, end_keyword, []⟩

/-- `json.get("fields")?.get("message")?.as_str()?` at the top of
`SpanTracker::process_line`. -/
def span_message (json : Json) : Option String :=
  (json.get "fields").bind (fun fields => (fields.get "message").bind Json.as_str)

/-- `SpanTracker::process_line`: returns the completed (start, end) pair, if
any, together with the updated tracker. -/
def SpanTracker.process_line (self : SpanTracker) (id : Nat) (json : Json) :
    Option (Json × Json) × SpanTracker :=
  match span_message json with
  | none => (none, self)
  | some message =>
    if message ≠ self.start_keyword ∧ message ≠ self.end_keyword then (none, self)
    else
      let span_exists := (self.started_span_cache.lookup id).isSome
      let expected_keyword := if span_exists then self.end_keyword else self.start_keyword
      if message ≠ expected_keyword then
        -- warn!("Dropping span - ...") and drop the line
        (none, self)
      else if span_exists then
        match self.started_span_cache.lookup id with
        | some start =>
          (some (start, json),
           { self with
             started_span_cache := self.started_span_cache.filter (fun kv => kv.1 ≠ id) })
        | none => (none, self)
      else
        (none, { self with started_span_cache := (id, json) :: self.started_span_cache })

/-! ## marker_file.rs: MarkerFile -/

/-- The correlator state of `MarkerFile` (the underlying `Lines` handle is
replaced by the explicit line list fed to `MarkerFile.run`). -/
structure MarkerFile where
  timestamp_converter : TimestampConverter
  new_close_tracker : SpanTracker
  enter_exit_tracker : SpanTracker
  deriving Repr

/-- `MarkerFile::parse`. -/
def MarkerFile.parse (tc : TimestampConverter) : MarkerFile :=
  ⟨tc, SpanTracker.new "new" "close", SpanTracker.new "enter" "exit"⟩

/-- `parse_timing_field`: `none` when the field is absent; panics on a
non-string field, on a suffix-free field, on an unparsable number and on an
unknown unit, as the source does. -/
def parse_timing_field (fields : Json) (field : String) : Panics (Option Duration) :=
  match fields.get field with
  | none => .ok none
  | some v => do
    let s ← unwrap "timing field is not a string" v.as_str
    -- .replace('µ', "u"): a character-for-character replacement
    let field_str := String.mk (s.toList.map (fun c => if c = 'µ' then 'u' else c))
    let cs := field_str.toList
    let end_idx ← unwrap "no numeric character in timing field"
      (rfindIdx cs (fun c => c.isDigit ∨ c = '.'))
    let num := String.mk (cs.take (end_idx + 1))
    let unit := String.mk (cs.drop (end_idx + 1))
    let d ← (match unit with
      | "s" => do
          let q ← unwrap "float parse failed" (parse_f64 num)
          Duration.from_secs_f64 q
      | "ms" => do
          let q ← unwrap "float parse failed" (parse_f64 num)
          Duration.from_secs_f64 (q / 1000)
      | "us" => do
          let q ← unwrap "float parse failed" (parse_f64 num)
          Duration.from_secs_f64 (q / 1000000)
      | "ns" => do
          let q ← unwrap "float parse failed" (parse_f64 num)
          Duration.from_secs_f64 (q / 1000000000)
      | _ => .error ("unknown unit '" ++ unit ++ "' in field " ++ field_str))
    .ok (some d)

/-- `MarkerFile::read_timestamp_from_event`: three `unwrap`s in the source. -/
def read_timestamp_from_event (json : Json) : Panics Nat := do
  let t ← unwrap "no timestamp field" (json.get "timestamp")
  let s ← unwrap "timestamp is not a string" t.as_str
  unwrap "timestamp parse failed" (parse_u64 s)

/-- The per-value conversion inside `MarkerFile::value_to_hashmap`: `as_str`
for strings, `to_string` otherwise. -/
def json_field_string (v : Json) : String :=
  match v.as_str with
  | some s => s
  | none => v.render

/-- `MarkerFile::value_to_hashmap`; collecting into a `HashMap` makes a
repeated key overwrite the earlier entry. -/
def value_to_hashmap (value : Json) : Panics (List (String × String)) := do
  let entries ← unwrap "value_to_hashmap on non-object" value.as_object
  .ok (entries.foldl (fun acc kv => setEntry acc kv.1 (json_field_string kv.2)) [])

/-- `MarkerFile::process_complete_span`. -/
def process_complete_span (tc : TimestampConverter) (span_type : SpanType)
    (start_json end_json : Json) : Panics (Option EventOrSpanMarker) := do
  let fields ← unwrap "end record has no fields" (end_json.get "fields")
  let start_time ← read_timestamp_from_event start_json
  let end_time ← read_timestamp_from_event end_json
  let span_value ← unwrap "end record has no span" (end_json.get "span")
  let extra_fields0 ← value_to_hashmap span_value
  let message ← unwrap "span has no name" (extra_fields0.lookup "name")
  let extra_fields := removeKey extra_fields0 "name"
  let action := (extra_fields.lookup "action").getD "-"
  -- Expected format: AtomType[-AtomId]/CollectionType-CollectionID
  let (category, profiler_label, stats_label) ←
    (match splitOnce action '/' with
     | some (atom, collection) => do
        let (collection_type, id0) ←
          unwrap ("Invalid collection: " ++ collection) (splitOnce collection '-')
        let id := if id0.length > 8 then id0.take 8 else id0
        let profiler_label := collection_type ++ "-" ++ id ++ " " ++ span_type.display
        let stats_label := collection_type ++ "::" ++ message ++ "-" ++ id
        .ok (atom, some profiler_label, some stats_label)
     | none => .ok (action, (none : Option String), (none : Option String)))
  let target_value ← unwrap "end record has no target" (end_json.get "target")
  let target ← unwrap "target is not a string" target_value.as_str
  let time_busy_opt ← parse_timing_field fields "time.busy"
  let time_busy := time_busy_opt.getD (Duration.from_nanos (u64_sub end_time start_time))
  let time_idle_opt ← parse_timing_field fields "time.idle"
  let time_idle := time_idle_opt.getD 0
  .ok (some
    { start_time := tc.convert_time start_time
      message
      target
      extra_fields
      marker_data := .span
        { end_time := tc.convert_time end_time
          span_type
          category
          profiler_label
          stats_label
          timings := ⟨time_busy, time_idle⟩ } })

/-- `MarkerFile::process_event`. -/
def process_event (tc : TimestampConverter) (event : Json) :
    Panics (Option EventOrSpanMarker) := do
  let raw ← read_timestamp_from_event event
  let start_time := tc.convert_time raw
  let target_value ← unwrap "event has no target" (event.get "target")
  let target ← unwrap "target is not a string" target_value.as_str
  let fields_value ← unwrap "event has no fields" (event.get "fields")
  let extra_fields0 ← value_to_hashmap fields_value
  match extra_fields0.lookup "message" with
  | none => .ok none
  | some message =>
    .ok (some
      { start_time
        message
        target
        extra_fields := removeKey extra_fields0 "message"
        marker_data := .event })

/-- `end["span"]["tid"] = value`: `serde_json`'s `IndexMut` creates the path
through objects and `Null`s and panics on any other value. -/
def index_entry (j : Json) (k : String) : Panics (Json × (Json → Json)) :=
  match j with
  | .obj entries => .ok ((entries.lookup k).getD .null, fun v => .obj (setEntry entries k v))
  | .null => .ok (.null, fun v => .obj [(k, v)])
  | _ => .error "cannot access key in non-object value"

def set_span_tid (end_json : Json) (tid : Int) : Panics Json := do
  let (span_value, put_span) ← index_entry end_json "span"
  let (_, put_tid) ← index_entry span_value "tid"
  .ok (put_span (put_tid (.num tid)))

/-- The body of `MarkerFile::process_line` after the id/tid/json parsing
(lines 339–353 of marker_file.rs). -/
def MarkerFile.process_parsed (self : MarkerFile) (id : Nat) (tid : Option Int)
    (json : Json) : Panics (Option EventOrSpanMarker × MarkerFile) :=
  if id ≠ 0 then
    match self.new_close_tracker.process_line id json with
    | (some (start_json, end_json), tracker) => do
      let m ← process_complete_span self.timestamp_converter .Total start_json end_json
      .ok (m, { self with new_close_tracker := tracker })
    | (none, tracker) =>
      let self := { self with new_close_tracker := tracker }
      match self.enter_exit_tracker.process_line id json with
      | (some (start_json, end_json), tracker2) => do
        -- tid only makes sense for running spans
        let end_json ← (match tid with
          | some t => set_span_tid end_json t
          | none => .ok end_json)
        let m ← process_complete_span self.timestamp_converter .Running start_json end_json
        .ok (m, { self with enter_exit_tracker := tracker2 })
      | (none, tracker2) => .ok (none, { self with enter_exit_tracker := tracker2 })
  else do
    let m ← process_event self.timestamp_converter json
    .ok (m, self)

/-- `MarkerFile::process_line`. -/
def MarkerFile.process_line (self : MarkerFile) (line : String) :
    Panics (Option EventOrSpanMarker × MarkerFile) :=
  match splitOnce line ' ' with
  | none => .ok (none, self)
  | some (ids, json_text) =>
    match Json.from_str json_text with
    | none => .ok (none, self)
    | some json =>
      let parsed : Option (Nat × Option Int) :=
        match splitOnce ids ',' with
        | some (id_str, tid_str) =>
          (parse_u64 id_str).bind (fun id => (parse_i32 tid_str).map (fun tid => (id, some tid)))
        | none => (parse_u64 ids).map (fun id => (id, none))
      match parsed with
      | none => .ok (none, self)
      | some (id, tid) => self.process_parsed id tid json

/-- The `Iterator for MarkerFile` loop, drained over a list of input lines
(`MarkerFile::collect` in `get_markers`). -/
def MarkerFile.run (self : MarkerFile) : List String → Panics (List EventOrSpanMarker)
  | [] => .ok []
  | line :: rest => do
    let (m, self1) ← self.process_line line
    let ms ← self1.run rest
    .ok (match m with
      | some marker => marker :: ms
      | none => ms)

/-- `MarkerFile::process_parsed` drained over a list of already-parsed
(id, tid, record) triples: the same collect loop with the line parsing
factored out. -/
def MarkerFile.run_parsed (self : MarkerFile) :
    List (Nat × Option Int × Json) → Panics (List EventOrSpanMarker)
  | [] => .ok []
  | (id, tid, json) :: rest => do
    let (m, self1) ← self.process_parsed id tid json
    let ms ← self1.run_parsed rest
    .ok (match m with
      | some marker => marker :: ms
      | none => ms)

/-- `get_markers` (file opening elided): collect all markers, then
`sort_by_key(start_time)` — a stable merge sort in Rust. -/
def get_markers (lines : List String) (tc : TimestampConverter) :
    Panics (List EventOrSpanMarker) := do
  let marker_spans ← (MarkerFile.parse tc).run lines
  .ok (marker_spans.mergeSort (fun a b => a.start_time ≤ b.start_time))

/-! ## marker_file.rs: MarkerStats -/

/-- `*map.entry(key).or_default() += timings` on an association-list map. -/
def addEntryTimings : List (String × TracingTimings) → String → TracingTimings →
    List (String × TracingTimings)
  | [], key, t => [(key, TracingTimings.default.add t)]
  | (k, v) :: rest, key, t =>
    if k = key then (k, v.add t) :: rest else (k, v) :: addEntryTimings rest key t

/-- `MarkerStats`. -/
structure MarkerStats where
  per_collection_map : List (String × TracingTimings)
  deriving Repr

def MarkerStats.new : MarkerStats := ⟨[]⟩

def MarkerStats.is_empty (self : MarkerStats) : Bool :=
  self.per_collection_map.isEmpty

/-- `MarkerStats::process_span`: only `Total` spans carrying a stats label
are accumulated. -/
def MarkerStats.process_span (self : MarkerStats) (marker : EventOrSpanMarker) :
    MarkerStats :=
  match marker.marker_data with
  | .span span =>
    if span.span_type ≠ .Total then self
    else
      match span.stats_label with
      | some label => ⟨addEntryTimings self.per_collection_map label span.timings⟩
      | none => self
  | .event => self

/-- `MarkerStats::calc_per_type`: `split_once('-').unwrap()` on every key
(panics on a dash-free key). -/
def MarkerStats.calc_per_type (self : MarkerStats) :
    Panics (List (String × TracingTimings)) :=
  self.per_collection_map.foldlM
    (fun per_type kv => do
      let (collection_type, _) ← unwrap "key has no dash" (splitOnce kv.1 '-')
      .ok (addEntryTimings per_type collection_type kv.2))
    []

/-! ## counter_file.rs and graph_color.rs -/

/-- `fxprof_processed_profile::GraphColor`. -/
inductive GraphColor where
  | Blue
  | Green
  | Grey
  | Ink
  | Magenta
  | Orange
  | Purple
  | Red
  | Teal
  | Yellow
  deriving Repr, DecidableEq

/-- `CounterCategory`. -/
inductive CounterCategory where
  | Memory
  | Bandwidth
  | Cpu
  | Custom
  deriving Repr, DecidableEq

/-- `From<CounterCategory> for &str`. -/
def CounterCategory.as_str : CounterCategory → String
  | .Memory => "Memory"
  | .Bandwidth => "Bandwidth"
  | .Cpu => "CPU"
  | .Custom => "Custom"

/-- `CounterSample` (`value` is the `f64`, idealized as a rational). -/
structure CounterSample where
  timestamp : Timestamp
  value : ℚ
  modification_count : Nat
  deriving Repr, DecidableEq

/-- `Counter`. -/
structure Counter where
  name : String
  category : CounterCategory
  description : String
  color : Option GraphColor
  samples : List CounterSample
  deriving Repr, DecidableEq

/-! ## process_sample_data.rs: the counter section of flush_samples_to_profile

The output `Profile` is a black-box collaborator; its mutations are recorded
as a trace of operations. -/

abbrev ThreadHandle := Nat

abbrev ProcessHandle := Nat

/-- `fxprof_processed_profile::MarkerTiming`. -/
inductive MarkerTiming where
  | Instant (t : Timestamp)
  | Interval (start_t end_t : Timestamp)
  deriving Repr, DecidableEq

/-- `fxprof_processed_profile::MarkerGraphType` (the variant used here). -/
inductive MarkerGraphType where
  | Line
  deriving Repr, DecidableEq

/-- The profile operations issued by the counter section. -/
inductive ProfileOp where
  | register_marker_type (type_name : String)
      (graphs : List (MarkerGraphType × Option GraphColor))
  | add_marker (thread : ThreadHandle) (timing : MarkerTiming)
      (marker_type_name : String) (name : String) (value : ℚ)
  | add_counter (process : ProcessHandle) (name : String) (category : String)
      (description : String) (color : Option GraphColor)
  | add_counter_sample (counter_name : String) (timestamp : Timestamp)
      (value : ℚ) (modification_count : Nat)
  deriving Repr, DecidableEq

/-- The trace of one counter's turn of the `for CounterOnThread`-loop in
`flush_samples_to_profile` (lines 198–241 of process_sample_data.rs). -/
def flush_one_counter (process : ProcessHandle) (thread : ThreadHandle)
    (counter : Counter) : List ProfileOp :=
  match counter.category with
  | .Custom =>
    -- CustomGraphMarker::create_marker_type + one instant marker per sample
    ProfileOp.register_marker_type ("CustomGraph-" ++ counter.name)
        [(MarkerGraphType.Line, counter.color)] ::
      counter.samples.map (fun sample =>
        ProfileOp.add_marker thread (MarkerTiming.Instant sample.timestamp)
          ("CustomGraph-" ++ counter.name) counter.name sample.value)
  | _ =>
    ProfileOp.add_counter process counter.name counter.category.as_str
        counter.description counter.color ::
      counter.samples.map (fun sample =>
        ProfileOp.add_counter_sample counter.name sample.timestamp sample.value
          sample.modification_count)

/-- The whole counter loop of `flush_samples_to_profile`. -/
def flush_counters (process : ProcessHandle) :
    List (ThreadHandle × Counter) → List ProfileOp
  | [] => []
  | (thread, counter) :: rest =>
    flush_one_counter process thread counter ++ flush_counters process rest

/-- Discriminators on the op trace, for counting. -/
def ProfileOp.is_add_counter : ProfileOp → Bool
  | .add_counter _ _ _ _ _ => true
  | _ => false

def ProfileOp.is_add_counter_sample : ProfileOp → Bool
  | .add_counter_sample _ _ _ _ => true
  | _ => false

def ProfileOp.is_instant_marker : ProfileOp → Bool
  | .add_marker _ (MarkerTiming.Instant _) _ _ _ => true
  | _ => false

/-! ## Statement-support definitions (concrete inputs and aggregates) -/

/-- Componentwise sum of the timings in a map fragment. -/
def sumTimings (l : List (String × TracingTimings)) : TracingTimings :=
  l.foldr (fun kv acc => kv.2.add acc) TracingTimings.default

/-- The identity timestamp converter (reference 0, factor 1). -/
def tc_id : TimestampConverter := ⟨0, 1⟩

/-- A well-formed span record: timestamp, target, `fields.message` keyword
and a named span. -/
def span_record (keyword ts : String) : Json :=
  Json.obj
    [("timestamp", Json.str ts), ("target", Json.str "t"),
     ("fields", Json.obj [("message", Json.str keyword)]),
     ("span", Json.obj [("name", Json.str "x")])]

/-- A record carrying only `fields.message` (the shape of the spec's §8
example lines). -/
def message_record (keyword : String) : Json :=
  Json.obj [("fields", Json.obj [("message", Json.str keyword)])]

/-- The spec's §8 example lines, verbatim. -/
def c4_line1 : String := "1 \x7b\"fields\":\x7b\"message\":\"new\"\x7d\x7d"

def c4_line2 : String :=
  "1 \x7b\"fields\":\x7b\"message\":\"close\"\x7d,\"span\":\x7b\"name\":\"x\",\"action\":\"cpu/work-42\"\x7d\x7d"

/-- The §8 example lines completed with the `timestamp`/`target` fields that
§6 requires of every record. -/
def c4_line1_full : String :=
  "1 \x7b\"timestamp\":\"100\",\"target\":\"t\",\"fields\":\x7b\"message\":\"new\"\x7d\x7d"

def c4_line2_full : String :=
  "1 \x7b\"timestamp\":\"200\",\"target\":\"t\",\"fields\":\x7b\"message\":\"close\"\x7d,\"span\":\x7b\"name\":\"x\",\"action\":\"cpu/work-42\"\x7d\x7d"

/-- The marker the completed §8 example produces. -/
def c4_marker : EventOrSpanMarker :=
  { start_time := 100
    message := "x"
    target := "t"
    extra_fields := [("action", "cpu/work-42")]
    marker_data := .span
      { span_type := .Total
        end_time := 200
        timings := ⟨100, 0⟩
        category := "cpu"
        profiler_label := some "work-42 Total"
        stats_label := some "work::x-42" } }

/-- A well-formed new-line followed by a close-line whose `time.busy` carries
the unrecognized unit suffix `q`. -/
def c1_line_bad_unit : String :=
  "1 \x7b\"timestamp\":\"200\",\"target\":\"t\",\"fields\":\x7b\"message\":\"close\",\"time.busy\":\"5q\"\x7d,\"span\":\x7b\"name\":\"x\"\x7d\x7d"

/-- A close record whose action carries an AtomId: `cpu-3/work-42`. -/
def c2_end_json : Json :=
  Json.obj
    [("timestamp", Json.str "200"), ("target", Json.str "t"),
     ("fields", Json.obj [("message", Json.str "close")]),
     ("span", Json.obj [("name", Json.str "x"), ("action", Json.str "cpu-3/work-42")])]

def c2_start_json : Json := Json.obj [("timestamp", Json.str "100")]

/-- A `Running` span marker carrying a stats-aggregation key. -/
def c3_running_marker : EventOrSpanMarker :=
  { start_time := 0
    message := "x"
    target := "t"
    extra_fields := []
    marker_data := .span
      { span_type := .Running
        end_time := 1
        timings := ⟨1, 2⟩
        category := "cpu"
        profiler_label := some "work-42 Running"
        stats_label := some "work-42::x" } }

/-- Start/end records whose timestamps are in reverse order (the end record
is 100 ticks before the start record). -/
def c8_start_json : Json :=
  Json.obj [("timestamp", Json.str "200"), ("target", Json.str "t"),
    ("fields", Json.obj [("message", Json.str "new")])]

def c8_end_json : Json :=
  Json.obj
    [("timestamp", Json.str "100"), ("target", Json.str "t"),
     ("fields", Json.obj [("message", Json.str "close")]),
     ("span", Json.obj [("name", Json.str "x")])]

/-- The span of the marker produced for the reversed pair; without timing
fields its busy time is the wrapped `u64` difference `100 - 200`. -/
def c8_span : MarkerSpan :=
  { span_type := .Total
    end_time := 100
    timings := ⟨Duration.from_nanos (u64_sub 100 200), 0⟩
    category := "-"
    profiler_label := none
    stats_label := none }

def c8_marker : EventOrSpanMarker :=
  { start_time := 200
    message := "x"
    target := "t"
    extra_fields := []
    marker_data := .span c8_span }

/-- A close record whose span object itself carries a `tid` field. -/
def c10_end_json : Json :=
  Json.obj
    [("timestamp", Json.str "200"), ("target", Json.str "t"),
     ("fields", Json.obj [("message", Json.str "close")]),
     ("span", Json.obj [("name", Json.str "x"), ("tid", Json.str "7")])]

/-- The category of the span marker in a `process_complete_span` result. -/
def marker_category : Panics (Option EventOrSpanMarker) → Option String
  | .ok (some m) =>
    match m.marker_data with
    | .span sp => some sp.category
    | .event => none
  | _ => none

/-- The extra fields of the marker in a `process_complete_span` result. -/
def marker_extra_fields : Panics (Option EventOrSpanMarker) → Option (List (String × String))
  | .ok (some m) => some m.extra_fields
  | _ => none

/-- Two event lines with out-of-order timestamps. -/
def c5_line1 : String :=
  "0 \x7b\"timestamp\":\"200\",\"target\":\"t\",\"fields\":\x7b\"message\":\"b\"\x7d\x7d"

def c5_line2 : String :=
  "0 \x7b\"timestamp\":\"100\",\"target\":\"t\",\"fields\":\x7b\"message\":\"a\"\x7d\x7d"

/-- The event markers of the two lines above, in input order. -/
def c5_marker_b : EventOrSpanMarker :=
  { start_time := 200, message := "b", target := "t", extra_fields := [],
    marker_data := .event }

def c5_marker_a : EventOrSpanMarker :=
  { start_time := 100, message := "a", target := "t", extra_fields := [],
    marker_data := .event }

/-! ## Helper lemmas -/

theorem ebind_ok {α β : Type} {x : Panics α} {f : α → Panics β} {b : β}
    (h : (x >>= f) = .ok b) : ∃ a, x = .ok a ∧ f a = .ok b := by
  cases x with
  | ok a => exact ⟨a, rfl, h⟩
  | error e => exact absurd h (by simp [Bind.bind, Except.bind])

theorem unwrap_ok {α : Type} {msg : String} {o : Option α} {a : α}
    (h : unwrap msg o = .ok a) : o = some a := by
  cases o with
  | some b => simp only [unwrap, Except.ok.injEq] at h; rw [h]
  | none => exact absurd h (by simp [unwrap])

theorem lookup_setEntry_self {β : Type} (l : List (String × β)) (k : String) (v : β) :
    (setEntry l k v).lookup k = some v := by
  induction l with
  | nil => simp [setEntry, List.lookup]
  | cons kv rest ih =>
    obtain ⟨k0, v0⟩ := kv
    by_cases hk : k0 = k
    · simp [setEntry, hk, List.lookup]
    · have hne : (k == k0) = false := beq_false_of_ne (Ne.symm hk)
      simp [setEntry, hk, List.lookup, hne, ih]

theorem lookup_setEntry_other {β : Type} (l : List (String × β)) (k k' : String) (v : β)
    (h : k' ≠ k) : (setEntry l k v).lookup k' = l.lookup k' := by
  induction l with
  | nil => simp [setEntry, List.lookup, beq_false_of_ne h]
  | cons kv rest ih =>
    obtain ⟨k0, v0⟩ := kv
    by_cases hk : k0 = k
    · subst hk
      simp [setEntry, List.lookup, beq_false_of_ne h]
    · simp [setEntry, hk, List.lookup, ih]

theorem lookup_removeKey_self {β : Type} (l : List (String × β)) (k : String) :
    (removeKey l k).lookup k = none := by
  induction l with
  | nil => simp [removeKey, List.lookup]
  | cons kv rest ih =>
    obtain ⟨k0, v0⟩ := kv
    by_cases hk : k0 = k
    · simpa [removeKey, hk] using ih
    · have hne : (k == k0) = false := beq_false_of_ne (Ne.symm hk)
      simpa [removeKey, hk, List.lookup, hne] using ih

theorem lookup_removeKey_other {β : Type} (l : List (String × β)) (k k' : String)
    (h : k' ≠ k) : (removeKey l k).lookup k' = l.lookup k' := by
  induction l with
  | nil => simp [removeKey, List.lookup]
  | cons kv rest ih =>
    obtain ⟨k0, v0⟩ := kv
    by_cases hk : k0 = k
    · subst hk
      have hne : (k' == k0) = false := beq_false_of_ne h
      simpa [removeKey, List.lookup, hne] using ih
    · by_cases hk2 : k0 = k'
      · subst hk2
        simp [removeKey, hk, List.lookup]
      · have hne : (k' == k0) = false := beq_false_of_ne (Ne.symm hk2)
        simpa [removeKey, hk, List.lookup, hne] using ih

theorem lookup_append {β : Type} (l1 l2 : List (String × β)) (k : String) :
    (l1 ++ l2).lookup k =
      match l1.lookup k with
      | some v => some v
      | none => l2.lookup k := by
  induction l1 with
  | nil => simp [List.lookup]
  | cons kv rest ih =>
    obtain ⟨k0, v0⟩ := kv
    by_cases hk : k = k0
    · simp [List.lookup, hk]
    · have hne : (k == k0) = false := beq_false_of_ne hk
      simp [List.lookup, hne, ih]

theorem lookup_none_iff {β : Type} (l : List (String × β)) (k : String) :
    l.lookup k = none ↔ k ∉ l.map Prod.fst := by
  induction l with
  | nil => simp [List.lookup]
  | cons kv rest ih =>
    obtain ⟨k0, v0⟩ := kv
    by_cases hk : k = k0
    · simp [List.lookup, hk]
    · have hne : (k == k0) = false := beq_false_of_ne hk
      simp [List.lookup, hne, ih, hk]

theorem reverse_lookup_of_nodup {β : Type} (l : List (String × β)) (k : String)
    (h : (l.map Prod.fst).Nodup) : l.reverse.lookup k = l.lookup k := by
  induction l with
  | nil => simp
  | cons kv rest ih =>
    obtain ⟨k0, v0⟩ := kv
    simp only [List.map_cons, List.nodup_cons] at h
    obtain ⟨hk0, hrest⟩ := h
    rw [List.reverse_cons, lookup_append]
    by_cases hk : k = k0
    · subst hk
      have h1 : rest.lookup k = none := (lookup_none_iff rest k).mpr hk0
      have h2 : rest.reverse.lookup k = none := by
        rw [lookup_none_iff]
        simpa using hk0
      simp [h2, h1, List.lookup]
    · have hne : (k == k0) = false := beq_false_of_ne hk
      rw [ih hrest]
      cases hr : rest.lookup k with
      | some v => simp [List.lookup, hne, hr]
      | none => simp [List.lookup, hne, hr]

theorem setEntry_cons_pos {β : Type} (rest : List (String × β)) (k0 k : String)
    (v0 v : β) (h : k0 = k) : setEntry ((k0, v0) :: rest) k v = (k, v) :: rest := by
  rw [setEntry, if_pos h]

theorem setEntry_cons_neg {β : Type} (rest : List (String × β)) (k0 k : String)
    (v0 v : β) (h : ¬k0 = k) :
    setEntry ((k0, v0) :: rest) k v = (k0, v0) :: setEntry rest k v := by
  rw [setEntry, if_neg h]

theorem mem_keys_setEntry {β : Type} (l : List (String × β)) (k k' : String) (v : β)
    (h : k' ∈ (setEntry l k v).map Prod.fst) : k' = k ∨ k' ∈ l.map Prod.fst := by
  induction l with
  | nil =>
    rw [show setEntry ([] : List (String × β)) k v = [(k, v)] from rfl] at h
    rw [List.map_cons, List.map_nil, List.mem_singleton] at h
    exact .inl h
  | cons kv rest ih =>
    obtain ⟨k0, v0⟩ := kv
    by_cases hk : k0 = k
    · rw [setEntry_cons_pos rest k0 k v0 v hk, List.map_cons, List.mem_cons] at h
      rcases h with h1 | h1
      · exact .inl h1
      · exact .inr (by rw [List.map_cons, List.mem_cons]; exact .inr h1)
    · rw [setEntry_cons_neg rest k0 k v0 v hk, List.map_cons, List.mem_cons] at h
      rcases h with h1 | h1
      · exact .inr (by rw [List.map_cons, List.mem_cons]; exact .inl h1)
      · rcases ih h1 with h2 | h2
        · exact .inl h2
        · exact .inr (by rw [List.map_cons, List.mem_cons]; exact .inr h2)

theorem setEntry_keys_nodup {β : Type} (l : List (String × β)) (k : String) (v : β)
    (h : (l.map Prod.fst).Nodup) : ((setEntry l k v).map Prod.fst).Nodup := by
  induction l with
  | nil =>
    rw [show setEntry ([] : List (String × β)) k v = [(k, v)] from rfl]
    simp
  | cons kv rest ih =>
    obtain ⟨k0, v0⟩ := kv
    rw [List.map_cons, List.nodup_cons] at h
    obtain ⟨hk0, hrest⟩ := h
    by_cases hk : k0 = k
    · rw [setEntry_cons_pos rest k0 k v0 v hk, List.map_cons, List.nodup_cons]
      subst hk
      exact ⟨hk0, hrest⟩
    · rw [setEntry_cons_neg rest k0 k v0 v hk, List.map_cons, List.nodup_cons]
      refine ⟨fun hmem => ?_, ih hrest⟩
      rcases mem_keys_setEntry rest k k0 v hmem with h1 | h1
      · exact hk h1
      · exact hk0 h1

theorem lookup_hashmap_fold (l : List (String × Json)) (acc : List (String × String))
    (k : String) :
    (l.foldl (fun acc kv => setEntry acc kv.1 (json_field_string kv.2)) acc).lookup k =
      match l.reverse.lookup k with
      | some v => some (json_field_string v)
      | none => acc.lookup k := by
  induction l generalizing acc with
  | nil => simp [List.lookup]
  | cons kv rest ih =>
    obtain ⟨k0, v0⟩ := kv
    rw [List.foldl_cons, ih, List.reverse_cons, lookup_append]
    cases hrl : rest.reverse.lookup k with
    | some v => simp
    | none =>
      by_cases hk : k = k0
      · subst hk
        simp [List.lookup, lookup_setEntry_self]
      · have hne : (k == k0) = false := beq_false_of_ne hk
        simp [List.lookup, hne, lookup_setEntry_other acc k0 k _ hk]

theorem TracingTimings.default_add (t : TracingTimings) :
    TracingTimings.default.add t = t := by
  simp [TracingTimings.default, TracingTimings.add]

theorem TracingTimings.add_assoc (a b c : TracingTimings) :
    (a.add b).add c = a.add (b.add c) := by
  simp only [TracingTimings.add, TracingTimings.mk.injEq]
  constructor <;> ring

theorem lookup_addEntryTimings_self (l : List (String × TracingTimings)) (k : String)
    (t : TracingTimings) :
    (addEntryTimings l k t).lookup k =
      some (((l.lookup k).getD TracingTimings.default).add t) := by
  induction l with
  | nil => simp [addEntryTimings, List.lookup]
  | cons kv rest ih =>
    obtain ⟨k0, v0⟩ := kv
    by_cases hk : k0 = k
    · subst hk
      simp [addEntryTimings, List.lookup]
    · have hne : (k == k0) = false := beq_false_of_ne (Ne.symm hk)
      simp [addEntryTimings, hk, List.lookup, hne, ih]

theorem lookup_addEntryTimings_other (l : List (String × TracingTimings)) (k k' : String)
    (t : TracingTimings) (h : k' ≠ k) :
    (addEntryTimings l k t).lookup k' = l.lookup k' := by
  induction l with
  | nil => simp [addEntryTimings, List.lookup, beq_false_of_ne h]
  | cons kv rest ih =>
    obtain ⟨k0, v0⟩ := kv
    by_cases hk : k0 = k
    · subst hk
      simp [addEntryTimings, List.lookup, beq_false_of_ne h]
    · by_cases hk2 : k0 = k'
      · subst hk2
        simp [addEntryTimings, hk, List.lookup]
      · have hne : (k' == k0) = false := beq_false_of_ne (Ne.symm hk2)
        simp [addEntryTimings, hk, List.lookup, hne, ih]

/-- Inversion of a successful `process_complete_span`: the produced marker's
times are the converted record timestamps and its extra fields are the span
object's fields without `name`. -/
theorem process_complete_span_ok_inv {tc : TimestampConverter} {st : SpanType}
    {sJ eJ : Json} {m : EventOrSpanMarker}
    (h : process_complete_span tc st sJ eJ = .ok (some m)) :
    ∃ ts1 ts2 sv hm,
      read_timestamp_from_event sJ = .ok ts1 ∧
      read_timestamp_from_event eJ = .ok ts2 ∧
      eJ.get "span" = some sv ∧
      value_to_hashmap sv = .ok hm ∧
      m.extra_fields = removeKey hm "name" ∧
      m.start_time = tc.convert_time ts1 ∧
      ∃ sp, m.marker_data = .span sp ∧ sp.end_time = tc.convert_time ts2 ∧
        sp.span_type = st := by
  unfold process_complete_span at h
  obtain ⟨fields, hf, h⟩ := ebind_ok h
  obtain ⟨ts1, h1, h⟩ := ebind_ok h
  obtain ⟨ts2, h2, h⟩ := ebind_ok h
  obtain ⟨sv, hsv, h⟩ := ebind_ok h
  obtain ⟨hm, hhm, h⟩ := ebind_ok h
  obtain ⟨message, hmsg, h⟩ := ebind_ok h
  obtain ⟨cps, hcps, h⟩ := ebind_ok h
  obtain ⟨category, plabel, slabel⟩ := cps
  obtain ⟨tv, htv, h⟩ := ebind_ok h
  obtain ⟨target, htarget, h⟩ := ebind_ok h
  obtain ⟨tb, htb, h⟩ := ebind_ok h
  obtain ⟨ti, hti, h⟩ := ebind_ok h
  simp only [Except.ok.injEq, Option.some.injEq] at h
  subst h
  exact ⟨ts1, ts2, sv, hm, h1, h2, unwrap_ok hsv, hhm, rfl, rfl, _, rfl, rfl, rfl⟩

/-! ## Claim C8 -/

/-- C8 (amended): a marker produced by `process_complete_span` whose data is
a span satisfies `end_time ≥ start_time` whenever the end record's raw
timestamp is at least the start record's raw timestamp; the code never
reorders or checks the two, so the property holds for ordered records (and
fails for reversed ones, see the counterexample). -/
theorem span_end_after_start_of_ordered_records
    (tc : TimestampConverter) (st : SpanType) (sJ eJ : Json)
    (m : EventOrSpanMarker) (sp : MarkerSpan) (ts1 ts2 : Nat)
    (hok : process_complete_span tc st sJ eJ = .ok (some m))
    (hsp : m.marker_data = .span sp)
    (h1 : read_timestamp_from_event sJ = .ok ts1)
    (h2 : read_timestamp_from_event eJ = .ok ts2)
    (hle : ts1 ≤ ts2) : m.start_time ≤ sp.end_time := by
  obtain ⟨ts1', ts2', sv, hm, h1', h2', _, _, _, hstart, sp', hsp', hend, _⟩ :=
    process_complete_span_ok_inv hok
  rw [h1] at h1'
  rw [h2] at h2'
  injection h1' with e1
  injection h2' with e2
  subst e1
  subst e2
  rw [hsp] at hsp'
  injection hsp' with e3
  subst e3
  rw [hstart, hend]
  unfold TimestampConverter.convert_time
  exact Nat.mul_le_mul_right _ (Nat.sub_le_sub_right hle _)

/-- Witness for C8: a concrete ordered new/close pair (timestamps 100 and
200) yields a marker with `start_time ≤ end_time`. -/
theorem span_end_after_start_of_ordered_records_witness :
    ({ start_time := 100, message := "x", target := "t", extra_fields := [],
       marker_data := MarkerData.span ⟨.Total, 200, ⟨100, 0⟩, "-", none, none⟩ } :
        EventOrSpanMarker).start_time ≤
      (⟨SpanType.Total, 200, ⟨100, 0⟩, "-", none, none⟩ : MarkerSpan).end_time :=
  span_end_after_start_of_ordered_records tc_id .Total (span_record "new" "100")
    (span_record "close" "200") _ _ 100 200 rfl rfl rfl rfl (by decide)

/-- Counterexample for C8 as stated: a completed pair whose end record's
timestamp (100) precedes the start record's (200) produces a span marker
with `end_time < start_time` — the claim's "regardless of the timestamp
values" fails. -/
theorem reversed_timestamps_reverse_span :
    process_complete_span tc_id .Total c8_start_json c8_end_json = .ok (some c8_marker) ∧
    c8_marker.marker_data = .span c8_span ∧
    c8_span.end_time < c8_marker.start_time :=
  ⟨rfl, rfl, by decide⟩

/-! ## Claim C4 -/

/-- C4 (amended): the spec's §8 example pair, completed with the
`timestamp`/`target` fields §6 requires of every record, yields exactly one
marker: a Total span with message "x", category "cpu" and stats key
"work::x-42". -/
theorem new_close_pair_yields_total_marker :
    get_markers [c4_line1_full, c4_line2_full] tc_id = .ok [c4_marker] := by
  have h : (MarkerFile.parse tc_id).run [c4_line1_full, c4_line2_full] = .ok [c4_marker] := rfl
  unfold get_markers
  rw [h]
  show Except.ok ([c4_marker].mergeSort (fun a b => a.start_time ≤ b.start_time)) = .ok [c4_marker]
  rw [List.mergeSort_singleton]

/-- Counterexample for C4 as stated: fed the two §8 lines verbatim, the
correlator panics on the missing `timestamp` field of the start record
instead of yielding a marker. -/
theorem spec_lines_without_timestamp_panic :
    (MarkerFile.parse tc_id).run [c4_line1, c4_line2] = .error "no timestamp field" := rfl

/-! ## Claim C1 -/

/-- C1 (amended): a line that fails framing (no space), JSON parsing or id
parsing, or whose record completes no span pair (unexpected keyword,
unknown content), produces no marker and never aborts — the iterator
continues with the unchanged (or keyword-updated) state. Lines that do
complete a pair can abort (see the counterexample). -/
theorem marker_line_failures_nonfatal :
    (∀ (mf : MarkerFile) (line : String), splitOnce line ' ' = none →
        mf.process_line line = .ok (none, mf)) ∧
    (∀ (mf : MarkerFile) (line ids json_text : String),
        splitOnce line ' ' = some (ids, json_text) → Json.from_str json_text = none →
        mf.process_line line = .ok (none, mf)) ∧
    (∀ (mf : MarkerFile) (line ids json_text : String) (json : Json),
        splitOnce line ' ' = some (ids, json_text) → Json.from_str json_text = some json →
        splitOnce ids ',' = none → parse_u64 ids = none →
        mf.process_line line = .ok (none, mf)) ∧
    (∀ (mf : MarkerFile) (id : Nat) (tid : Option Int) (json : Json)
        (tracker1 tracker2 : SpanTracker), id ≠ 0 →
        mf.new_close_tracker.process_line id json = (none, tracker1) →
        mf.enter_exit_tracker.process_line id json = (none, tracker2) →
        mf.process_parsed id tid json =
          .ok (none, { mf with new_close_tracker := tracker1, enter_exit_tracker := tracker2 })) := by
  refine ⟨?_, ?_, ?_, ?_⟩
  · intro mf line h
    simp [MarkerFile.process_line, h]
  · intro mf line ids json_text h1 h2
    simp [MarkerFile.process_line, h1, h2]
  · intro mf line ids json_text json h1 h2 h3 h4
    simp [MarkerFile.process_line, h1, h2, h3, h4]
  · intro mf id tid json tracker1 tracker2 hid hnc hee
    simp [MarkerFile.process_parsed, hid, hnc, hee]

/-- Witness for C1: concrete lines exercising each non-fatal failure case. -/
theorem marker_line_failures_nonfatal_witness :
    (MarkerFile.parse tc_id).process_line "garbage" = .ok (none, MarkerFile.parse tc_id) ∧
    (MarkerFile.parse tc_id).process_line "1 nonsense" = .ok (none, MarkerFile.parse tc_id) ∧
    (MarkerFile.parse tc_id).process_line "x \x7b\x7d" = .ok (none, MarkerFile.parse tc_id) ∧
    (MarkerFile.parse tc_id).process_parsed 7 none (Json.str "zzz") =
      .ok (none, MarkerFile.parse tc_id) := by
  obtain h := marker_line_failures_nonfatal
  exact ⟨h.1 _ _ rfl, h.2.1 _ _ "1" "nonsense" rfl rfl,
    h.2.2.1 _ _ "x" "\x7b\x7d" (Json.obj []) rfl rfl rfl rfl,
    h.2.2.2 _ 7 none (Json.str "zzz") _ _ (by decide) rfl rfl⟩

/-- Counterexample for C1 as stated: a close record whose `time.busy` field
carries the unrecognized unit suffix `q` completes its pair and aborts
processing with a panic, so not every possible line content is non-fatal. -/
theorem unknown_unit_suffix_panics :
    (MarkerFile.parse tc_id).run [c4_line1_full, c1_line_bad_unit] =
      .error "unknown unit 'q' in field 5q" := rfl

/-! ## Claim C2 -/

/-- C2 (amended): for a completed span whose action has the form
`Atom/CollectionType-CollectionId`, the produced marker's category is the
whole part before the `/` (including any `-AtomId` suffix, not the AtomType
component alone), the profiler label is
`CollectionType-<id truncated to 8> <span type>` and the stats key is
`CollectionType::<message>-<id truncated to 8>`. -/
theorem action_derivation_uses_full_atom
    (tc : TimestampConverter) (st : SpanType)
    (message action atom collection collection_type cid : String)
    (h1 : splitOnce action '/' = some (atom, collection))
    (h2 : splitOnce collection '-' = some (collection_type, cid)) :
    process_complete_span tc st (Json.obj [("timestamp", Json.str "100")])
      (Json.obj
        [("timestamp", Json.str "200"), ("target", Json.str "t"),
         ("fields", Json.obj [("message", Json.str "close")]),
         ("span", Json.obj [("name", Json.str message), ("action", Json.str action)])]) =
      .ok (some
        { start_time := tc.convert_time 100
          message := message
          target := "t"
          extra_fields := [("action", action)]
          marker_data := .span
            { span_type := st
              end_time := tc.convert_time 200
              timings := ⟨Duration.from_nanos (u64_sub 200 100), 0⟩
              category := atom
              profiler_label := some (collection_type ++ "-" ++
                (if cid.length > 8 then cid.take 8 else cid) ++ " " ++ st.display)
              stats_label := some (collection_type ++ "::" ++ message ++ "-" ++
                (if cid.length > 8 then cid.take 8 else cid)) } }) := by
  have e3 : value_to_hashmap (Json.obj [("name", Json.str message), ("action", Json.str action)]) =
      .ok [("name", message), ("action", action)] := rfl
  have obind : ∀ {α β : Type} (a : α) (f : α → Panics β), (Except.ok a >>= f) = f a :=
    fun a f => rfl
  unfold process_complete_span
  simp [Json.get, List.lookup, read_timestamp_from_event, unwrap, Json.as_str, e3, obind,
    show parse_u64 "100" = some 100 from rfl, show parse_u64 "200" = some 200 from rfl,
    parse_timing_field, removeKey, h1, h2]

/-- Witness for C2: a span with action `cpu/work-4242captures` (no AtomId,
long CollectionId) gets category "cpu", label "work-4242capt Total" and
stats key "work::x-4242capt". -/
theorem action_derivation_uses_full_atom_witness :
    process_complete_span tc_id .Total (Json.obj [("timestamp", Json.str "100")])
      (Json.obj
        [("timestamp", Json.str "200"), ("target", Json.str "t"),
         ("fields", Json.obj [("message", Json.str "close")]),
         ("span", Json.obj
           [("name", Json.str "x"), ("action", Json.str "cpu/work-4242captures")])]) =
      .ok (some
        { start_time := tc_id.convert_time 100
          message := "x"
          target := "t"
          extra_fields := [("action", "cpu/work-4242captures")]
          marker_data := .span
            { span_type := .Total
              end_time := tc_id.convert_time 200
              timings := ⟨Duration.from_nanos (u64_sub 200 100), 0⟩
              category := "cpu"
              profiler_label := some "work-4242capt Total"
              stats_label := some "work::x-4242capt" } }) :=
  action_derivation_uses_full_atom tc_id .Total "x" "cpu/work-4242captures" "cpu"
    "work-4242captures" "work" "4242captures" rfl rfl

/-- Counterexample for C2 as stated: with action `cpu-3/work-42` the category
is the whole atom part "cpu-3", not the AtomType "cpu" alone. -/
theorem category_keeps_atom_id :
    marker_category (process_complete_span tc_id .Total c2_start_json c2_end_json) =
      some "cpu-3" ∧ ("cpu-3" : String) ≠ "cpu" :=
  ⟨rfl, by decide⟩

/-! ## Claim C5 -/

/-- C5: for every input, the sequence returned by `get_markers` is
non-decreasing in `start_time`, and markers with equal `start_time` keep the
relative order in which the correlator produced them (stable sort). -/
theorem get_markers_sorted_stable
    (lines : List String) (tc : TimestampConverter)
    (pre sorted : List EventOrSpanMarker)
    (hpre : (MarkerFile.parse tc).run lines = .ok pre)
    (hout : get_markers lines tc = .ok sorted) :
    sorted.Pairwise (fun a b => a.start_time ≤ b.start_time) ∧
    ∀ t : Timestamp, sorted.filter (fun m => m.start_time == t) =
      pre.filter (fun m => m.start_time == t) := by
  have htrans : ∀ a b c : EventOrSpanMarker,
      decide (a.start_time ≤ b.start_time) = true →
      decide (b.start_time ≤ c.start_time) = true →
      decide (a.start_time ≤ c.start_time) = true := by
    intro a b c hab hbc
    simp only [decide_eq_true_eq] at hab hbc ⊢
    exact Nat.le_trans hab hbc
  have htotal : ∀ a b : EventOrSpanMarker,
      (decide (a.start_time ≤ b.start_time) || decide (b.start_time ≤ a.start_time)) = true := by
    intro a b
    simp only [Bool.or_eq_true, decide_eq_true_eq]
    exact Nat.le_total a.start_time b.start_time
  have hsorted : sorted = pre.mergeSort (fun a b => a.start_time ≤ b.start_time) := by
    unfold get_markers at hout
    rw [hpre] at hout
    have h2 : Except.ok (pre.mergeSort (fun a b => a.start_time ≤ b.start_time)) =
        (.ok sorted : Panics (List EventOrSpanMarker)) := hout
    injection h2 with e
    exact e.symm
  subst hsorted
  constructor
  · exact (List.sorted_mergeSort htrans htotal pre).imp (fun h => by simpa using h)
  · intro t
    have hsub0 : (pre.filter (fun m => m.start_time == t)).Sublist pre :=
      List.filter_sublist pre
    have hpw : (pre.filter (fun m => m.start_time == t)).Pairwise
        (fun a b => decide (a.start_time ≤ b.start_time) = true) := by
      apply List.pairwise_of_forall_mem_list
      intro a ha b hb
      rw [List.mem_filter] at ha hb
      have ha2 := ha.2
      have hb2 := hb.2
      simp only [beq_iff_eq] at ha2 hb2
      simp [ha2, hb2]
    have hsub : (pre.filter (fun m => m.start_time == t)).Sublist
        (pre.mergeSort (fun a b => a.start_time ≤ b.start_time)) :=
      List.sublist_mergeSort htrans htotal hpw hsub0
    have hself : (pre.filter (fun m => m.start_time == t)).filter
        (fun m => m.start_time == t) = pre.filter (fun m => m.start_time == t) := by
      rw [List.filter_eq_self]
      intro a ha
      exact (List.mem_filter.mp ha).2
    have hsub2 := List.Sublist.filter (fun m => m.start_time == t) hsub
    rw [hself] at hsub2
    have hperm := (List.mergeSort_perm pre (fun a b => a.start_time ≤ b.start_time)).filter
      (fun m => m.start_time == t)
    exact (hsub2.eq_of_length hperm.length_eq.symm).symm

/-- Witness for C5: two event lines arriving in reverse time order come out
sorted, and the filter at each timestamp matches the production order. -/
theorem get_markers_sorted_stable_witness :
    ([c5_marker_a, c5_marker_b].Pairwise
      (fun a b => a.start_time ≤ b.start_time)) ∧
    [c5_marker_a, c5_marker_b].filter (fun m => m.start_time == 100) =
      [c5_marker_b, c5_marker_a].filter (fun m => m.start_time == 100) := by
  have hpre : (MarkerFile.parse tc_id).run [c5_line1, c5_line2] =
      .ok [c5_marker_b, c5_marker_a] := rfl
  have hout : get_markers [c5_line1, c5_line2] tc_id = .ok [c5_marker_a, c5_marker_b] := by
    unfold get_markers
    rw [hpre]
    show Except.ok ([c5_marker_b, c5_marker_a].mergeSort
      (fun a b => a.start_time ≤ b.start_time)) = _
    norm_num [List.mergeSort, c5_marker_a, c5_marker_b]
  obtain h := get_markers_sorted_stable [c5_line1, c5_line2] tc_id
    [c5_marker_b, c5_marker_a] [c5_marker_a, c5_marker_b] hpre hout
  exact ⟨h.1, h.2 100⟩

/-! ## Claim C6 -/

/-- C6: an end-keyword line with no pending start, and a start-keyword line
whose id already has a pending start, are dropped leaving the tracker state
unchanged; a subsequent well-formed start/end pair for the same id still
yields its span pair. -/
theorem tracker_drops_preserve_state
    (st : SpanTracker) (id : Nat) (close_j start_j end_j : Json)
    (hkw : st.start_keyword ≠ st.end_keyword)
    (hc : span_message close_j = some st.end_keyword)
    (hs : span_message start_j = some st.start_keyword)
    (he : span_message end_j = some st.end_keyword)
    (hnone : st.started_span_cache.lookup id = none) :
    st.process_line id close_j = (none, st) ∧
    (∀ st2 : SpanTracker, st2.start_keyword = st.start_keyword →
        st2.end_keyword = st.end_keyword →
        (st2.started_span_cache.lookup id).isSome →
        st2.process_line id start_j = (none, st2)) ∧
    st.process_line id start_j =
      (none, ⟨st.start_keyword, st.end_keyword, (id, start_j) :: st.started_span_cache⟩) ∧
    (SpanTracker.mk st.start_keyword st.end_keyword
        ((id, start_j) :: st.started_span_cache)).process_line id end_j =
      (some (start_j, end_j),
       ⟨st.start_keyword, st.end_keyword,
        ((id, start_j) :: st.started_span_cache).filter (fun kv => kv.1 ≠ id)⟩) := by
  refine ⟨?_, ?_, ?_, ?_⟩
  · simp [SpanTracker.process_line, hc, hnone, Ne.symm hkw]
  · intro st2 h1 h2 hsome
    obtain ⟨s0, hs0⟩ := Option.isSome_iff_exists.mp hsome
    simp [SpanTracker.process_line, hs, h1, h2, hs0, hkw]
  · simp [SpanTracker.process_line, hs, hnone]
  · simp [SpanTracker.process_line, he, List.lookup_cons, Ne.symm hkw]

/-- Witness for C6: the new/close tracker at id 1 drops an orphan close and
a colliding new, and then still completes a well-formed pair. -/
theorem tracker_drops_preserve_state_witness :
    (SpanTracker.new "new" "close").process_line 1 (message_record "close") =
      (none, SpanTracker.new "new" "close") ∧
    (SpanTracker.mk "new" "close" [(1, message_record "new")]).process_line 1
      (message_record "new") = (none, SpanTracker.mk "new" "close" [(1, message_record "new")]) ∧
    (SpanTracker.new "new" "close").process_line 1 (message_record "new") =
      (none, SpanTracker.mk "new" "close" [(1, message_record "new")]) ∧
    (SpanTracker.mk "new" "close" [(1, message_record "new")]).process_line 1
      (message_record "close") =
      (some (message_record "new", message_record "close"), SpanTracker.mk "new" "close" []) := by
  obtain h := tracker_drops_preserve_state (SpanTracker.new "new" "close") 1
    (message_record "close") (message_record "new") (message_record "close")
    (by decide) rfl rfl rfl rfl
  exact ⟨h.1, h.2.1 (SpanTracker.mk "new" "close" [(1, message_record "new")]) rfl rfl rfl,
    h.2.2.1, h.2.2.2⟩

/-! ## Claim C7 -/

/-- C7: for every id greater than 0, two complete enter/exit pairs for that
id produce exactly two markers, each an independent span with
span_type = Running. -/
theorem reentrant_pairs_two_running_markers (tc : TimestampConverter) (id : Nat)
    (hid : id ≠ 0) :
    (MarkerFile.parse tc).run_parsed
      [(id, none, span_record "enter" "100"), (id, none, span_record "exit" "200"),
       (id, none, span_record "enter" "300"), (id, none, span_record "exit" "400")] =
    .ok [⟨tc.convert_time 100, "x", "t", [],
            .span ⟨.Running, tc.convert_time 200,
              ⟨Duration.from_nanos (u64_sub 200 100), 0⟩, "-", none, none⟩⟩,
         ⟨tc.convert_time 300, "x", "t", [],
            .span ⟨.Running, tc.convert_time 400,
              ⟨Duration.from_nanos (u64_sub 400 300), 0⟩, "-", none, none⟩⟩] := by
  have obind : ∀ {α β : Type} (a : α) (f : α → Panics β), (Except.ok a >>= f) = f a :=
    fun a f => rfl
  have pcs1 : process_complete_span tc .Running (span_record "enter" "100")
      (span_record "exit" "200") =
      .ok (some ⟨tc.convert_time 100, "x", "t", [],
        .span ⟨.Running, tc.convert_time 200,
          ⟨Duration.from_nanos (u64_sub 200 100), 0⟩, "-", none, none⟩⟩) := rfl
  have pcs2 : process_complete_span tc .Running (span_record "enter" "300")
      (span_record "exit" "400") =
      .ok (some ⟨tc.convert_time 300, "x", "t", [],
        .span ⟨.Running, tc.convert_time 400,
          ⟨Duration.from_nanos (u64_sub 400 300), 0⟩, "-", none, none⟩⟩) := rfl
  simp only [span_record] at pcs1 pcs2
  simp [MarkerFile.run_parsed, MarkerFile.process_parsed, hid, SpanTracker.process_line,
    span_message, Json.get, List.lookup, Json.as_str, MarkerFile.parse, SpanTracker.new,
    span_record, obind, pcs1, pcs2]

/-- Witness for C7: the two enter/exit pairs at id 1 under the identity
converter. -/
theorem reentrant_pairs_two_running_markers_witness :
    (MarkerFile.parse tc_id).run_parsed
      [(1, none, span_record "enter" "100"), (1, none, span_record "exit" "200"),
       (1, none, span_record "enter" "300"), (1, none, span_record "exit" "400")] =
    .ok [⟨tc_id.convert_time 100, "x", "t", [],
            .span ⟨.Running, tc_id.convert_time 200,
              ⟨Duration.from_nanos (u64_sub 200 100), 0⟩, "-", none, none⟩⟩,
         ⟨tc_id.convert_time 300, "x", "t", [],
            .span ⟨.Running, tc_id.convert_time 400,
              ⟨Duration.from_nanos (u64_sub 400 300), 0⟩, "-", none, none⟩⟩] :=
  reentrant_pairs_two_running_markers tc_id 1 (by decide)

/-! ## Claim C3 -/

theorem TracingTimings.add_default (t : TracingTimings) :
    t.add TracingTimings.default = t := by
  simp [TracingTimings.default, TracingTimings.add]

/-- The accumulator invariant of `MarkerStats::calc_per_type`: folding the
per-collection entries whose keys all contain a dash produces, for every
type, the sum of the timings of the keys with that type prefix. -/
theorem calc_per_type_fold
    (l : List (String × TracingTimings)) (acc : List (String × TracingTimings))
    (h : ∀ kv ∈ l, (splitOnce kv.1 '-').isSome) :
    ∃ m, (l.foldlM (fun per_type kv => do
        let (collection_type, _) ← unwrap "key has no dash" (splitOnce kv.1 '-')
        .ok (addEntryTimings per_type collection_type kv.2)) acc : Panics _) = .ok m ∧
      ∀ t, (m.lookup t).getD TracingTimings.default =
        ((acc.lookup t).getD TracingTimings.default).add
          (sumTimings (l.filter (fun kv => (splitOnce kv.1 '-').map Prod.fst == some t))) := by
  induction l generalizing acc with
  | nil =>
    refine ⟨acc, rfl, fun t => ?_⟩
    simp [sumTimings, TracingTimings.add_default]
  | cons kv l ih =>
    have hkv := h kv (by simp)
    obtain ⟨p, hp⟩ := Option.isSome_iff_exists.mp hkv
    obtain ⟨ct, rest⟩ := p
    obtain ⟨m, hm, hlook⟩ := ih (addEntryTimings acc ct kv.2)
      (fun kv2 hkv2 => h kv2 (by simp [hkv2]))
    refine ⟨m, ?_, ?_⟩
    · rw [List.foldlM_cons, hp]
      exact hm
    · intro t
      rw [hlook t, List.filter_cons]
      by_cases ht : ct = t
      · subst ht
        have hpred : ((splitOnce kv.1 '-').map Prod.fst == some ct) = true := by
          rw [hp]
          simp
        rw [if_pos hpred]
        rw [lookup_addEntryTimings_self]
        simp only [Option.getD_some]
        simp only [sumTimings, List.foldr_cons]
        rw [TracingTimings.add_assoc]
      · have hpred : ((splitOnce kv.1 '-').map Prod.fst == some t) = false := by
          rw [hp]
          simpa using fun heq => ht heq
        rw [if_neg (by simp [hpred])]
        rw [lookup_addEntryTimings_other acc ct t kv.2 (fun heq => ht heq.symm)]

/-- C3 (amended): `MarkerStats::process_span` accumulates a span's
`time_busy`/`time_idle` into the per-key running total only for `Total`
spans carrying a stats key — a `Running` span is skipped, leaving the map
unchanged — and the per-type totals are obtained by splitting each key on
its first `-` and summing. -/
theorem stats_total_spans_accumulate
    (stats : MarkerStats) (marker : EventOrSpanMarker) (span : MarkerSpan) (label : String)
    (hdata : marker.marker_data = .span span) :
    (span.span_type = .Total → span.stats_label = some label →
      ((stats.process_span marker).per_collection_map.lookup label =
          some (((stats.per_collection_map.lookup label).getD TracingTimings.default).add
            span.timings) ∧
       ∀ k, k ≠ label → (stats.process_span marker).per_collection_map.lookup k =
          stats.per_collection_map.lookup k)) ∧
    (span.span_type = .Running → stats.process_span marker = stats) ∧
    ((∀ kv ∈ stats.per_collection_map, (splitOnce kv.1 '-').isSome) →
      ∃ per_type, stats.calc_per_type = .ok per_type ∧
        ∀ t, (per_type.lookup t).getD TracingTimings.default =
          sumTimings (stats.per_collection_map.filter
            (fun kv => (splitOnce kv.1 '-').map Prod.fst == some t))) := by
  refine ⟨?_, ?_, ?_⟩
  · intro htot hlab
    have hps : stats.process_span marker =
        ⟨addEntryTimings stats.per_collection_map label span.timings⟩ := by
      simp [MarkerStats.process_span, hdata, htot, hlab]
    rw [hps]
    exact ⟨lookup_addEntryTimings_self _ _ _,
      fun k hk => lookup_addEntryTimings_other _ _ _ _ hk⟩
  · intro hrun
    simp [MarkerStats.process_span, hdata, hrun]
  · intro hkeys
    obtain ⟨m, hm, hlook⟩ := calc_per_type_fold stats.per_collection_map [] hkeys
    refine ⟨m, hm, fun t => ?_⟩
    rw [hlook t]
    simp [TracingTimings.default_add, List.lookup]

/-- Witness for C3: a Total span with stats key "work::x-42" is accumulated
into a one-entry map; a Running span leaves the empty stats untouched. -/
theorem stats_total_spans_accumulate_witness :
    ((MarkerStats.mk [("work-a", ⟨1, 2⟩)]).process_span c4_marker).per_collection_map.lookup
        "work::x-42" =
      some ((((MarkerStats.mk [("work-a", ⟨1, 2⟩)]).per_collection_map.lookup
        "work::x-42").getD TracingTimings.default).add ⟨100, 0⟩) ∧
    ((MarkerStats.mk [("work-a", ⟨1, 2⟩)]).process_span c4_marker).per_collection_map.lookup
        "work-a" = (MarkerStats.mk [("work-a", ⟨1, 2⟩)]).per_collection_map.lookup "work-a" ∧
    MarkerStats.new.process_span c3_running_marker = MarkerStats.new := by
  obtain h1 := stats_total_spans_accumulate (MarkerStats.mk [("work-a", ⟨1, 2⟩)]) c4_marker
    ⟨.Total, 200, ⟨100, 0⟩, "cpu", some "work-42 Total", some "work::x-42"⟩ "work::x-42" rfl
  obtain h2 := stats_total_spans_accumulate MarkerStats.new c3_running_marker
    ⟨.Running, 1, ⟨1, 2⟩, "cpu", some "work-42 Running", some "work-42::x"⟩ "work-42::x" rfl
  exact ⟨(h1.1 rfl rfl).1, (h1.1 rfl rfl).2 "work-a" (by decide), h2.2.1 rfl⟩

/-- Counterexample for C3 as stated: a `Running` span carrying a
stats-aggregation key is not accumulated — the stats map stays empty. -/
theorem running_span_not_accumulated :
    MarkerStats.new.process_span c3_running_marker = MarkerStats.new := rfl

/-! ## Claim C9 -/

/-- C9: in the counter section of `flush_samples_to_profile`, a counter with
category Custom issues no `add_counter`/`add_counter_sample` and exactly one
instantaneous line-graph marker per sample; every other category issues one
`add_counter` followed by one `add_counter_sample` per sample carrying that
sample's (timestamp, value, modification_count). -/
theorem counter_flush_by_category (process : ProcessHandle) (thread : ThreadHandle)
    (counter : Counter) (rest : List (ThreadHandle × Counter)) :
    flush_counters process ((thread, counter) :: rest) =
      flush_one_counter process thread counter ++ flush_counters process rest ∧
    (counter.category = .Custom →
      flush_one_counter process thread counter =
        ProfileOp.register_marker_type ("CustomGraph-" ++ counter.name)
            [(MarkerGraphType.Line, counter.color)] ::
          counter.samples.map (fun s =>
            ProfileOp.add_marker thread (MarkerTiming.Instant s.timestamp)
              ("CustomGraph-" ++ counter.name) counter.name s.value) ∧
      (flush_one_counter process thread counter).countP ProfileOp.is_add_counter = 0 ∧
      (flush_one_counter process thread counter).countP ProfileOp.is_add_counter_sample = 0 ∧
      (flush_one_counter process thread counter).countP ProfileOp.is_instant_marker =
        counter.samples.length) ∧
    (counter.category ≠ .Custom →
      flush_one_counter process thread counter =
        ProfileOp.add_counter process counter.name counter.category.as_str
            counter.description counter.color ::
          counter.samples.map (fun s =>
            ProfileOp.add_counter_sample counter.name s.timestamp s.value
              s.modification_count)) := by
  refine ⟨rfl, ?_, ?_⟩
  · intro h
    have hops : flush_one_counter process thread counter =
        ProfileOp.register_marker_type ("CustomGraph-" ++ counter.name)
            [(MarkerGraphType.Line, counter.color)] ::
          counter.samples.map (fun s =>
            ProfileOp.add_marker thread (MarkerTiming.Instant s.timestamp)
              ("CustomGraph-" ++ counter.name) counter.name s.value) := by
      rw [flush_one_counter, h]
    refine ⟨hops, ?_, ?_, ?_⟩
    · rw [hops]
      simp [List.countP_cons, List.countP_map, ProfileOp.is_add_counter, List.countP_eq_zero,
        Function.comp]
    · rw [hops]
      simp [List.countP_cons, List.countP_map, ProfileOp.is_add_counter_sample,
        List.countP_eq_zero, Function.comp]
    · rw [hops]
      simp [List.countP_cons, List.countP_map, ProfileOp.is_instant_marker,
        List.countP_eq_length, Function.comp]
  · intro h
    cases hcat : counter.category with
    | Custom => exact absurd hcat h
    | Memory => rw [flush_one_counter, hcat]
    | Bandwidth => rw [flush_one_counter, hcat]
    | Cpu => rw [flush_one_counter, hcat]

/-- Witness for C9: a Custom counter with two samples becomes one marker-type
registration and two instant markers; a CPU counter becomes `add_counter`
plus one `add_counter_sample`. -/
theorem counter_flush_by_category_witness :
    flush_one_counter 1 2 (Counter.mk "mem" .Custom "d" (some .Blue)
        [⟨10, 5, 1⟩, ⟨20, 6, 2⟩]) =
      [ProfileOp.register_marker_type "CustomGraph-mem" [(MarkerGraphType.Line, some .Blue)],
       ProfileOp.add_marker 2 (MarkerTiming.Instant 10) "CustomGraph-mem" "mem" 5,
       ProfileOp.add_marker 2 (MarkerTiming.Instant 20) "CustomGraph-mem" "mem" 6] ∧
    (flush_one_counter 1 2 (Counter.mk "mem" .Custom "d" (some .Blue)
        [⟨10, 5, 1⟩, ⟨20, 6, 2⟩])).countP ProfileOp.is_add_counter = 0 ∧
    (flush_one_counter 1 2 (Counter.mk "mem" .Custom "d" (some .Blue)
        [⟨10, 5, 1⟩, ⟨20, 6, 2⟩])).countP ProfileOp.is_add_counter_sample = 0 ∧
    (flush_one_counter 1 2 (Counter.mk "mem" .Custom "d" (some .Blue)
        [⟨10, 5, 1⟩, ⟨20, 6, 2⟩])).countP ProfileOp.is_instant_marker = 2 ∧
    flush_one_counter 1 2 (Counter.mk "cpu" .Cpu "d" none [⟨10, 5, 1⟩]) =
      [ProfileOp.add_counter 1 "cpu" "CPU" "d" none,
       ProfileOp.add_counter_sample "cpu" 10 5 1] := by
  obtain h1 := counter_flush_by_category 1 2
    (Counter.mk "mem" .Custom "d" (some .Blue) [⟨10, 5, 1⟩, ⟨20, 6, 2⟩]) []
  obtain h2 := counter_flush_by_category 1 2 (Counter.mk "cpu" .Cpu "d" none [⟨10, 5, 1⟩]) []
  obtain ⟨hops, hc1, hc2, hc3⟩ := h1.2.1 rfl
  exact ⟨hops, hc1, hc2, hc3, h2.2.2 (by decide)⟩

/-! ## Claim C10 -/

theorem lookup_reverse_none {β : Type} {l : List (String × β)} {k : String}
    (h : l.lookup k = none) : l.reverse.lookup k = none := by
  rw [lookup_none_iff] at h ⊢
  simpa [List.map_reverse, List.mem_reverse] using h

/-- Inversion of a successful `value_to_hashmap`: the argument was an object
and the map is the stringifying fold of its entries. -/
theorem value_to_hashmap_ok_inv {sv : Json} {hm : List (String × String)}
    (h : value_to_hashmap sv = .ok hm) :
    ∃ entries, sv = .obj entries ∧
      hm = entries.foldl (fun acc kv => setEntry acc kv.1 (json_field_string kv.2)) [] := by
  unfold value_to_hashmap at h
  obtain ⟨entries, he, h2⟩ := ebind_ok h
  have he2 := unwrap_ok he
  refine ⟨entries, ?_, ?_⟩
  · cases sv <;> simp [Json.as_object] at he2
    rw [he2]
  · injection h2 with e
    exact e.symm

/-- C10 (amended): the lifted span name is absent from every span marker's
extra fields; a Total span's extra fields contain "tid" only if the input
record's span object itself carried one; and a Running span completed from a
line with a `,tid` suffix has extra_fields mapping "tid" to that thread id
(the insertion overwrites any input value). -/
theorem tid_field_handling :
    (∀ (tc : TimestampConverter) (st : SpanType) (sJ eJ : Json) (m : EventOrSpanMarker),
        process_complete_span tc st sJ eJ = .ok (some m) →
        m.extra_fields.lookup "name" = none) ∧
    (∀ (tc : TimestampConverter) (sJ eJ : Json) (m : EventOrSpanMarker),
        process_complete_span tc .Total sJ eJ = .ok (some m) →
        (eJ.get "span").bind (fun s => s.get "tid") = none →
        m.extra_fields.lookup "tid" = none) ∧
    (∀ (mf : MarkerFile) (id : Nat) (t : Int) (json sJ eJ : Json)
        (tracker1 tracker2 : SpanTracker) (m : EventOrSpanMarker) (mf2 : MarkerFile)
        (s_entries : List (String × Json)),
        mf.new_close_tracker.process_line id json = (none, tracker1) →
        mf.enter_exit_tracker.process_line id json = (some (sJ, eJ), tracker2) →
        id ≠ 0 →
        eJ.get "span" = some (.obj s_entries) →
        (s_entries.map Prod.fst).Nodup →
        mf.process_parsed id (some t) json = .ok (some m, mf2) →
        m.extra_fields.lookup "tid" = some (toString t)) := by
  refine ⟨?_, ?_, ?_⟩
  · intro tc st sJ eJ m hok
    obtain ⟨ts1, ts2, sv, hm, _, _, _, _, hext, _, _⟩ := process_complete_span_ok_inv hok
    rw [hext]
    exact lookup_removeKey_self hm "name"
  · intro tc sJ eJ m hok htid
    obtain ⟨ts1, ts2, sv, hm, _, _, hsv, hhm, hext, _, _⟩ := process_complete_span_ok_inv hok
    obtain ⟨entries, hsve, hfold⟩ := value_to_hashmap_ok_inv hhm
    rw [hsv] at htid
    have htid2 : sv.get "tid" = none := htid
    rw [hsve] at htid2
    have hlk : entries.lookup "tid" = none := htid2
    rw [hext, lookup_removeKey_other hm "name" "tid" (by decide), hfold,
      lookup_hashmap_fold, lookup_reverse_none hlk]
    simp [List.lookup]
  · intro mf id t json sJ eJ tracker1 tracker2 m mf2 s_entries hnc hee hid hspan hnodup hok
    rw [MarkerFile.process_parsed, if_pos hid] at hok
    simp only [hnc] at hok
    simp only [hee] at hok
    obtain ⟨ej2, hset, hok⟩ := ebind_ok hok
    obtain ⟨mm, hpcs, hok⟩ := ebind_ok hok
    injection hok with e
    rw [Prod.mk.injEq] at e
    obtain ⟨e1, e2⟩ := e
    obtain ⟨entriesE, hEJ⟩ : ∃ es, eJ = .obj es := by
      cases eJ <;> simp [Json.get] at hspan
      exact ⟨_, rfl⟩
    subst hEJ
    have hlookS : entriesE.lookup "span" = some (.obj s_entries) := hspan
    have obind : ∀ {α β : Type} (a : α) (f : α → Panics β), (Except.ok a >>= f) = f a :=
      fun a f => rfl
    have e0 : index_entry (Json.obj entriesE) "span" =
        .ok (Json.obj s_entries, fun v => .obj (setEntry entriesE "span" v)) := by
      simp [index_entry, hlookS]
    have hset2 : set_span_tid (Json.obj entriesE) t =
        .ok (.obj (setEntry entriesE "span" (.obj (setEntry s_entries "tid" (.num t))))) := by
      simp [set_span_tid, e0, index_entry, obind, hlookS]
    rw [hset2] at hset
    injection hset with eSet
    subst eSet
    rw [e1] at hpcs
    obtain ⟨ts1, ts2, sv, hm, _, _, hsv, hhm, hext, _, _⟩ := process_complete_span_ok_inv hpcs
    have hgs : (Json.obj (setEntry entriesE "span"
        (.obj (setEntry s_entries "tid" (.num t))))).get "span" =
          some (.obj (setEntry s_entries "tid" (.num t))) :=
      lookup_setEntry_self entriesE "span" _
    rw [hgs] at hsv
    injection hsv with eSv
    subst eSv
    obtain ⟨entries2, hsve, hfold⟩ := value_to_hashmap_ok_inv hhm
    injection hsve with eE
    rw [hext, lookup_removeKey_other hm "name" "tid" (by decide), hfold, ← eE,
      lookup_hashmap_fold]
    have hnd2 : ((setEntry s_entries "tid" (Json.num t)).map Prod.fst).Nodup :=
      setEntry_keys_nodup s_entries "tid" (Json.num t) hnodup
    rw [reverse_lookup_of_nodup _ _ hnd2, lookup_setEntry_self]
    simp [json_field_string, Json.as_str, Json.render]

/-- Witness for C10: the completed §8 pair has neither "name" nor "tid" in
its extra fields, and a Running pair processed with thread id 7 maps "tid"
to "7". -/
theorem tid_field_handling_witness :
    c4_marker.extra_fields.lookup "name" = none ∧
    c4_marker.extra_fields.lookup "tid" = none ∧
    ({ start_time := 100, message := "x", target := "t", extra_fields := [("tid", "7")],
       marker_data := MarkerData.span ⟨.Running, 200,
         ⟨Duration.from_nanos (u64_sub 200 100), 0⟩, "-", none, none⟩ } :
       EventOrSpanMarker).extra_fields.lookup "tid" = some (toString (7 : Int)) := by
  obtain ⟨ha, hb, hc⟩ := tid_field_handling
  refine ⟨?_, ?_, ?_⟩
  · exact ha tc_id .Total
      (Json.obj [("timestamp", Json.str "100"), ("target", Json.str "t"),
        ("fields", Json.obj [("message", Json.str "new")])])
      (Json.obj [("timestamp", Json.str "200"), ("target", Json.str "t"),
        ("fields", Json.obj [("message", Json.str "close")]),
        ("span", Json.obj [("name", Json.str "x"), ("action", Json.str "cpu/work-42")])])
      c4_marker rfl
  · exact hb tc_id
      (Json.obj [("timestamp", Json.str "100"), ("target", Json.str "t"),
        ("fields", Json.obj [("message", Json.str "new")])])
      (Json.obj [("timestamp", Json.str "200"), ("target", Json.str "t"),
        ("fields", Json.obj [("message", Json.str "close")]),
        ("span", Json.obj [("name", Json.str "x"), ("action", Json.str "cpu/work-42")])])
      c4_marker rfl rfl
  · exact hc
      (MarkerFile.mk tc_id (SpanTracker.new "new" "close")
        (SpanTracker.mk "enter" "exit" [(5, span_record "enter" "100")]))
      5 7 (span_record "exit" "200") (span_record "enter" "100") (span_record "exit" "200")
      (SpanTracker.new "new" "close") (SpanTracker.mk "enter" "exit" [])
      _ (MarkerFile.mk tc_id (SpanTracker.new "new" "close")
        (SpanTracker.mk "enter" "exit" []))
      [("name", Json.str "x")] rfl rfl (by decide) rfl (by decide) rfl

/-- Counterexample for C10 as stated: a close record whose span object
carries a `tid` field yields a Total span whose extra fields contain "tid"
— so Total-span extra fields are not tid-free for every input. -/
theorem total_span_carries_input_tid :
    marker_extra_fields (process_complete_span tc_id .Total c2_start_json c10_end_json) =
      some [("tid", "7")] := rfl
